import Mathlib

/-!
Shallow embedding of the authentication/authorization middleware chain of the
user-management REST service (src/src/index.ts): the token authenticator
`authenticate`, the admin gate `userIsAdmin` and the self-or-admin gate
`userIsSelfOrAdmin`, together with the behavior of the `query` helper over the
MySQL connection pool. The embedding models the externally observable outcome
of one request: which guard stage runs, which database lookups are issued, and
what signal (next-stage invocation, HTTP status, hang, unhandled rejection)
reaches the caller.
-/

namespace LvAuth

/-- A persisted `users` row (interface `User` plus the stored `accessToken`
column read by `authenticate` via `result[0].accessToken`). -/
structure Account where
  id : Nat
  name : String
  email : String
  password : String
  role : String
  accessToken : String
deriving Repr, DecidableEq

/-- The parts of an Express request the guards read: the `access-token` and
`email` headers, the `user-role` header, and the `:id` path parameter.
A header is `none` when absent. -/
structure Request where
  accessToken : Option String
  email : Option String
  userRole : Option String
  paramId : String
deriving Repr, DecidableEq

/-- JavaScript truthiness of a header value: `!h` is true when the header is
absent or the empty string. -/
def tsTruthy : Option String → Bool
  | none => false
  | some s => s != ""

/-- One database operation issued through `query`. The guards only ever issue
`read` (a `SELECT * FROM users WHERE email = ?`); the `write` constructor
models the INSERT/UPDATE/DELETE statements of the resource handlers, so that
read-only-ness of the guards is a provable property of their traces rather
than a tautology of the type. -/
inductive DbOp where
  | read (email : String)
  | write (a : Account)
deriving Repr, DecidableEq

/-- Whether a database operation is a read. -/
def DbOp.isRead : DbOp → Bool
  | .read _ => true
  | .write _ => false

/-- Effect of one database operation on the persisted store. Reads leave the
store unchanged; a write inserts a row. -/
def applyOp (store : List Account) : DbOp → List Account
  | .read _ => store
  | .write a => a :: store

/-- Effect of a sequence of database operations on the persisted store. -/
def applyOps (store : List Account) (ops : List DbOp) : List Account :=
  ops.foldl applyOp store

/-- Outcome of one call to the `query` helper, as seen by the awaiting caller:
`rows` when `connection.query` succeeds, `fault` when `connection.query`
errors (the promise rejects), and `hang` when `pool.getConnection` errors —
in that branch `query` only logs and returns, so the promise never settles. -/
inductive DbReply where
  | rows (rs : List Account)
  | fault
  | hang
deriving Repr, DecidableEq

/-- The request's environment: the behavior of `jwt.verify (·, "oranges")`
(`none` models a thrown verification error, `some v` the decoded value), and
the persistence layer's reply to the n-th `query` of the request, keyed by
the email bound into the statement. -/
structure Env where
  verify : String → Option String
  db : Nat → String → DbReply

/-- The honest persistence layer over a fixed store: every lookup resolves
with the rows whose `email` column equals the bound email. -/
def honestDb (store : List Account) : Nat → String → DbReply :=
  fun _ em => .rows (store.filter (fun a => a.email == em))

/-- How one invocation of `authenticate` settles: `accepted` means `next()`
was invoked; `errored m` means the middleware's promise rejected with an
`Error` carrying message `m`; `pending` means it awaits a `query` promise
that never settles. -/
inductive AuthResult where
  | accepted
  | errored (msg : String)
  | pending
deriving Repr, DecidableEq

/-- Result of running `authenticate`: how it settled, the next query index,
and the database operations it issued. -/
structure AuthOut where
  result : AuthResult
  calls : Nat
  trace : List DbOp
deriving Repr, DecidableEq

/-- The `authenticate` middleware (index.ts lines 77–101). Control flow of
the source: throw `Unauthorized` (outside the try) when either header is
falsy; inside the try, `jwt.verify` the presented token, run one lookup by
the claimed email, `jwt.verify` `result[0].accessToken` (a `TypeError` when
the lookup returned no rows), call `next()` on equality of the two decoded
values, otherwise throw; every throw inside the try is caught and re-thrown
as `Internal Server Error`. `k` is the index of the request's next query.
In the `hang` branch no SQL statement was executed, so nothing is traced. -/
def authenticate (env : Env) (req : Request) (k : Nat) : AuthOut :=
  if !(tsTruthy req.accessToken) || !(tsTruthy req.email) then
    { result := .errored "Unauthorized", calls := k, trace := [] }
  else
    let accessToken := req.accessToken.getD ""
    let em := req.email.getD ""
    match env.verify accessToken with
    | none => { result := .errored "Internal Server Error", calls := k, trace := [] }
    | some requestToken =>
      match env.db k em with
      | .hang => { result := .pending, calls := k + 1, trace := [] }
      | .fault => { result := .errored "Internal Server Error", calls := k + 1, trace := [.read em] }
      | .rows qres =>
        match qres with
        | [] => { result := .errored "Internal Server Error", calls := k + 1, trace := [.read em] }
        | account :: _ =>
          match env.verify account.accessToken with
          | none => { result := .errored "Internal Server Error", calls := k + 1, trace := [.read em] }
          | some userToken =>
            if requestToken == userToken then
              { result := .accepted, calls := k + 1, trace := [.read em] }
            else
              { result := .errored "Internal Server Error", calls := k + 1, trace := [.read em] }

/-- What one request observes at the boundary: the guard delegated to the
next stage (`allow`), sent an HTTP status (`respond`), never answered
(`noResponse`, the awaited promise never settles), or left a rejected promise
that nothing awaits (`unhandledRejection`: `authenticate` invokes `next()`
without awaiting it, so a rejection of the async callback is caught by no
try/catch in the chain). -/
inductive Outcome where
  | allow
  | respond (status : Nat)
  | noResponse
  | unhandledRejection
deriving Repr, DecidableEq

/-- Result of running a guard middleware: the boundary outcome, the next
query index, and the database operations issued. -/
structure GuardOut where
  outcome : Outcome
  calls : Nat
  trace : List DbOp
deriving Repr, DecidableEq

/-- The role condition of `userIsAdmin` (index.ts line 119):
`result.length > 0 && result[0].role === "ADMIN"`, with JavaScript's
short-circuit `&&`. -/
def roleOk : List Account → Bool
  | [] => false
  | account :: _ => account.role == "ADMIN"

/-- The `userIsAdmin` middleware (index.ts lines 110–130). It awaits
`authenticate` with an async callback; a rejection of `authenticate` is
caught and answered with `sendStatus(500)`. On acceptance the callback runs
detached (`next()` is not awaited inside `authenticate`): it performs a
second lookup by the claimed email, then delegates when `roleOk`, else sends
403. A rejection of that second lookup is caught by nothing (unhandled
rejection); a hanging lookup leaves the request unanswered. -/
def userIsAdmin (env : Env) (req : Request) (k : Nat) : GuardOut :=
  let a := authenticate env req k
  match a.result with
  | .errored _ => { outcome := .respond 500, calls := a.calls, trace := a.trace }
  | .pending => { outcome := .noResponse, calls := a.calls, trace := a.trace }
  | .accepted =>
    let em := req.email.getD ""
    match env.db a.calls em with
    | .hang => { outcome := .noResponse, calls := a.calls + 1, trace := a.trace }
    | .fault => { outcome := .unhandledRejection, calls := a.calls + 1, trace := a.trace ++ [.read em] }
    | .rows qres =>
      if roleOk qres then
        { outcome := .allow, calls := a.calls + 1, trace := a.trace ++ [.read em] }
      else
        { outcome := .respond 403, calls := a.calls + 1, trace := a.trace ++ [.read em] }

/-- The `userIsSelfOrAdmin` middleware (index.ts lines 139–157). On
acceptance by `authenticate`, its callback binds `userId := req.params.id`
and compares `userId === req.params.id || userRole === "ADMIN"` — the guard
of the source, embedded literally. -/
def userIsSelfOrAdmin (env : Env) (req : Request) (k : Nat) : GuardOut :=
  let a := authenticate env req k
  match a.result with
  | .errored _ => { outcome := .respond 500, calls := a.calls, trace := a.trace }
  | .pending => { outcome := .noResponse, calls := a.calls, trace := a.trace }
  | .accepted =>
    let userId := req.paramId
    if userId == req.paramId || req.userRole == some "ADMIN" then
      { outcome := .allow, calls := a.calls, trace := a.trace }
    else
      { outcome := .respond 403, calls := a.calls, trace := a.trace }

/-- Boundary outcome of an endpoint guarded by `authenticate` alone (the
create handler's `try { await authenticate(...) } catch { sendStatus(500) }`
wrapper): a rejection maps to 500, acceptance delegates to the handler body. -/
def runAuthenticated (env : Env) (req : Request) : Outcome :=
  match (authenticate env req 0).result with
  | .errored _ => .respond 500
  | .pending => .noResponse
  | .accepted => .allow

/-- Boundary outcome of an endpoint guarded by `userIsAdmin`. -/
def userIsAdminRun (env : Env) (req : Request) : Outcome :=
  (userIsAdmin env req 0).outcome

/-- Boundary outcome of an endpoint guarded by `userIsSelfOrAdmin`. -/
def userIsSelfOrAdminRun (env : Env) (req : Request) : Outcome :=
  (userIsSelfOrAdmin env req 0).outcome

/-- Modelled from the spec, §4.2: the proposed rewrite of the Role Authorizer
in which the duplicated lookup is collapsed — the single lookup performed
during token authentication is shared with the role check. Same header
check, token verification and comparison as `authenticate`, then
`role == "ADMIN"` is decided on the rows of that one lookup; failures map
to the same boundary signals as the two-lookup guard's wrapper. -/
def userIsAdminSingle (env : Env) (req : Request) (k : Nat) : Outcome :=
  if !(tsTruthy req.accessToken) || !(tsTruthy req.email) then
    .respond 500
  else
    let accessToken := req.accessToken.getD ""
    let em := req.email.getD ""
    match env.verify accessToken with
    | none => .respond 500
    | some requestToken =>
      match env.db k em with
      | .hang => .noResponse
      | .fault => .respond 500
      | .rows qres =>
        match qres with
        | [] => .respond 500
        | account :: _ =>
          match env.verify account.accessToken with
          | none => .respond 500
          | some userToken =>
            if requestToken == userToken then
              (if roleOk qres then .allow else .respond 403)
            else
              .respond 500

/-! Concrete material used by the witness and counterexample theorems. -/

/-- A token decoder that accepts every token and decodes it to itself. -/
def idVerify : String → Option String :=
  fun s => some s

/-- A persisted administrator account. -/
def acctAdmin : Account :=
  { id := 1, name := "Admin", email := "admin@x.com", password := "pw",
    role := "ADMIN", accessToken := "tokA" }

/-- A persisted non-administrator account. -/
def acctUser : Account :=
  { id := 2, name := "Alice", email := "a@x.com", password := "pw",
    role := "USER", accessToken := "tokU" }

/-- A store holding the administrator and the ordinary user. -/
def storeW : List Account :=
  [acctAdmin, acctUser]

/-- Environment with the identity decoder over the honest store `storeW`. -/
def envW : Env :=
  { verify := idVerify, db := honestDb storeW }

/-- A request presenting the administrator's credentials. -/
def reqAdmin : Request :=
  { accessToken := some "tokA", email := some "admin@x.com", userRole := none, paramId := "1" }

/-- A request presenting the ordinary user's credentials, with a `user-role`
header of `USER`, targeting resource id 9. -/
def reqUser : Request :=
  { accessToken := some "tokU", email := some "a@x.com", userRole := some "USER", paramId := "9" }

/-- A request with no `access-token` header. -/
def reqNoTok : Request :=
  { accessToken := none, email := some "a@x.com", userRole := none, paramId := "1" }

/-- A request with neither credential header. -/
def reqNoHeaders : Request :=
  { accessToken := none, email := none, userRole := none, paramId := "1" }

/-- A request claiming an email that matches no account in `storeW`. -/
def reqUnknown : Request :=
  { accessToken := some "t", email := some "unknown@x.com", userRole := none, paramId := "1" }

/-- An account whose stored token decodes to a value other than the one the
request in `reqC5` presents. -/
def acctMismatch : Account :=
  { id := 3, name := "Bob", email := "b@x.com", password := "pw",
    role := "USER", accessToken := "other" }

/-- A store holding only `acctMismatch`. -/
def storeC5 : List Account :=
  [acctMismatch]

/-- Environment with the identity decoder over the honest store `storeC5`. -/
def envC5 : Env :=
  { verify := idVerify, db := honestDb storeC5 }

/-- A request for `acctMismatch`'s email presenting a token that decodes to a
different value than the stored one. -/
def reqC5 : Request :=
  { accessToken := some "mine", email := some "b@x.com", userRole := none, paramId := "1" }

/-- Environment in which `pool.getConnection` fails on every `query`: the
promise returned by `query` never settles. -/
def envHang : Env :=
  { verify := idVerify, db := fun _ _ => .hang }

/-- Environment in which the first lookup of the request resolves with the
administrator's row and every later lookup's `connection.query` errors. -/
def envFault2 : Env :=
  { verify := idVerify, db := fun k _ => if k == 0 then .rows [acctAdmin] else .fault }

/-- Environment in which the first lookup of the request resolves with the
administrator's row and every later lookup resolves with zero rows. -/
def envSecondEmpty : Env :=
  { verify := idVerify, db := fun k _ => if k == 0 then .rows [acctAdmin] else .rows [] }

/-! Helper lemmas shared by the claim theorems. -/

/-- `authenticate` never reads the `user-role` header. -/
theorem authenticate_userRole_irrel (env : Env) (req : Request) (k : Nat) (v : Option String) :
    authenticate env { req with userRole := v } k = authenticate env req k := by
  cases req
  rfl

/-- `userIsAdmin` never reads the `user-role` header. -/
theorem userIsAdmin_userRole_irrel (env : Env) (req : Request) (k : Nat) (v : Option String) :
    userIsAdmin env { req with userRole := v } k = userIsAdmin env req k := by
  cases req
  rfl

/-- C1: every request accepted by the token authenticator is allowed through
by the observed Self-or-Admin guard, whatever the path parameter and the
`user-role` header hold: the guard's first comparison is of the path
parameter against itself, so its Forbidden branch is unreachable. -/
theorem userIsSelfOrAdmin_always_allows (env : Env) (req : Request)
    (h : (authenticate env req 0).result = .accepted) :
    userIsSelfOrAdminRun env req = .allow := by
  simp [userIsSelfOrAdminRun, userIsSelfOrAdmin, h]

/-- Witness for C1: a non-admin caller with `user-role` header `USER`
targeting a foreign resource id is authenticated and then allowed through. -/
theorem userIsSelfOrAdmin_always_allows_witness :
    (authenticate envW reqUser 0).result = AuthResult.accepted ∧
      userIsSelfOrAdminRun envW reqUser = Outcome.allow :=
  ⟨rfl, userIsSelfOrAdmin_always_allows envW reqUser rfl⟩

/-- C3: a request lacking the `access-token` header or the `email` header is
rejected by `authenticate` (the middleware throws, so the next stage is not
invoked) with an empty database trace: no persistence lookup is performed. -/
theorem authenticate_missing_header_rejects (env : Env) (req : Request)
    (h : req.accessToken = none ∨ req.email = none) :
    (authenticate env req 0).result = .errored "Unauthorized" ∧
      (authenticate env req 0).trace = [] := by
  rcases h with h | h <;> simp [authenticate, tsTruthy, h]

/-- Witness for C3: the request with no `access-token` header is rejected
before any lookup. -/
theorem authenticate_missing_header_rejects_witness :
    (reqNoTok.accessToken = none ∨ reqNoTok.email = none) ∧
      (authenticate envW reqNoTok 0).result = AuthResult.errored "Unauthorized" ∧
      (authenticate envW reqNoTok 0).trace = [] :=
  ⟨Or.inl rfl, authenticate_missing_header_rejects envW reqNoTok (Or.inl rfl)⟩

/-- C6: any two requests rejected by `authenticate` — for whatever internal
reason (missing credentials, invalid token, unknown principal, token
mismatch) — produce the same boundary outcome, namely the 500 response, and
that outcome is distinct from the Forbidden 403 signal produced by a failed
role check. -/
theorem auth_failures_collapse (e1 e2 : Env) (r1 r2 : Request) (m1 m2 : String)
    (h1 : (authenticate e1 r1 0).result = .errored m1)
    (h2 : (authenticate e2 r2 0).result = .errored m2) :
    runAuthenticated e1 r1 = runAuthenticated e2 r2 ∧
      runAuthenticated e1 r1 = .respond 500 ∧
      Outcome.respond 403 ≠ runAuthenticated e1 r1 := by
  unfold runAuthenticated
  rw [h1, h2]
  simp

/-- Witness for C6: a missing-credentials rejection and a token-mismatch
rejection — different internal reasons, different error messages — are
indistinguishable at the boundary. -/
theorem auth_failures_collapse_witness :
    (authenticate envW reqNoTok 0).result = AuthResult.errored "Unauthorized" ∧
      (authenticate envC5 reqC5 0).result = AuthResult.errored "Internal Server Error" ∧
      runAuthenticated envW reqNoTok = runAuthenticated envC5 reqC5 :=
  ⟨rfl, rfl, (auth_failures_collapse envW envC5 reqNoTok reqC5 _ _ rfl rfl).1⟩

/-- C2: over an honest store, a request accepted by the token authenticator
is allowed through by the Role Authorizer exactly when the account row the
role check looks up by the claimed email carries the persisted role `ADMIN`;
when it does not, the guard answers Forbidden (403) and the next stage is
not invoked; and the decision never depends on the client-supplied
`user-role` header. -/
theorem userIsAdmin_allows_iff_admin (verify : String → Option String)
    (store : List Account) (req : Request) (v : Option String)
    (h : (authenticate ⟨verify, honestDb store⟩ req 0).result = .accepted) :
    (userIsAdminRun ⟨verify, honestDb store⟩ req = .allow ↔
      roleOk (store.filter (fun a => a.email == req.email.getD "")) = true) ∧
      (roleOk (store.filter (fun a => a.email == req.email.getD "")) = false →
        userIsAdminRun ⟨verify, honestDb store⟩ req = .respond 403) ∧
      userIsAdminRun ⟨verify, honestDb store⟩ { req with userRole := v } =
        userIsAdminRun ⟨verify, honestDb store⟩ req := by
  refine ⟨?_, ?_, ?_⟩
  · cases hr : roleOk (store.filter (fun a => a.email == req.email.getD "")) <;>
      simp [userIsAdminRun, userIsAdmin, honestDb, h, hr]
  · intro hr
    simp [userIsAdminRun, userIsAdmin, honestDb, h, hr]
  · simp [userIsAdminRun, userIsAdmin_userRole_irrel]

/-- Witness for C2: the administrator's request is authenticated and
allowed, and replacing its `user-role` header by `USER` changes nothing. -/
theorem userIsAdmin_allows_iff_admin_witness :
    (authenticate envW reqAdmin 0).result = AuthResult.accepted ∧
      userIsAdminRun envW reqAdmin = Outcome.allow ∧
      userIsAdminRun envW { reqAdmin with userRole := some "USER" } =
        userIsAdminRun envW reqAdmin :=
  ⟨rfl,
    (userIsAdmin_allows_iff_admin idVerify storeW reqAdmin (some "USER") rfl).1.mpr rfl,
    (userIsAdmin_allows_iff_admin idVerify storeW reqAdmin (some "USER") rfl).2.2⟩

/-- C4: over an honest store, a request whose claimed email matches no
account row is never accepted by the token authenticator; it is rejected by
a thrown-and-rethrown error (no unhandled fault escapes the middleware), and
the enclosing handler's try/catch answers it with the 500 response. -/
theorem authenticate_unknown_email (verify : String → Option String)
    (store : List Account) (req : Request) (em : String)
    (h1 : req.email = some em)
    (h2 : store.filter (fun a => a.email == em) = []) :
    (authenticate ⟨verify, honestDb store⟩ req 0).result ≠ .accepted ∧
      (∃ m, (authenticate ⟨verify, honestDb store⟩ req 0).result = .errored m) ∧
      runAuthenticated ⟨verify, honestDb store⟩ req = .respond 500 := by
  have key : ∃ m, (authenticate ⟨verify, honestDb store⟩ req 0).result = .errored m := by
    simp only [authenticate, honestDb, h1, Option.getD_some, h2]
    split
    · exact ⟨"Unauthorized", rfl⟩
    · split
      · exact ⟨"Internal Server Error", rfl⟩
      · exact ⟨"Internal Server Error", rfl⟩
  obtain ⟨m, hm⟩ := key
  refine ⟨by simp [hm], ⟨m, hm⟩, ?_⟩
  unfold runAuthenticated
  rw [hm]

/-- Witness for C4: the request claiming `unknown@x.com` against the store
`storeW` (which has no such account) is rejected and answered with 500. -/
theorem authenticate_unknown_email_witness :
    storeW.filter (fun a => a.email == "unknown@x.com") = [] ∧
      (authenticate envW reqUnknown 0).result ≠ AuthResult.accepted ∧
      runAuthenticated envW reqUnknown = Outcome.respond 500 :=
  ⟨rfl,
    (authenticate_unknown_email idVerify storeW reqUnknown "unknown@x.com" rfl rfl).1,
    (authenticate_unknown_email idVerify storeW reqUnknown "unknown@x.com" rfl rfl).2.2⟩

/-- C5: over an honest store, when both the presented token and the stored
token decode successfully but to different values, `authenticate` rejects
(the thrown `Forbidden` error is caught and re-thrown as
`Internal Server Error`) and the next stage is not invoked. -/
theorem authenticate_token_mismatch (verify : String → Option String)
    (store : List Account) (req : Request) (tok em : String)
    (account : Account) (rest : List Account) (rt ut : String)
    (h1 : req.accessToken = some tok) (h2 : tok ≠ "")
    (h3 : req.email = some em) (h4 : em ≠ "")
    (h5 : store.filter (fun a => a.email == em) = account :: rest)
    (h6 : verify tok = some rt)
    (h7 : verify account.accessToken = some ut)
    (h8 : rt ≠ ut) :
    (authenticate ⟨verify, honestDb store⟩ req 0).result = .errored "Internal Server Error" ∧
      (authenticate ⟨verify, honestDb store⟩ req 0).result ≠ .accepted := by
  simp [authenticate, honestDb, tsTruthy, h1, h2, h3, h4, h5, h6, h7, h8]

/-- Witness for C5: the request presents a token decoding to `mine` while
the stored token of the matching account decodes to `other`; both decode
successfully, yet authentication rejects. -/
theorem authenticate_token_mismatch_witness :
    idVerify "mine" = some "mine" ∧
      idVerify acctMismatch.accessToken = some "other" ∧
      "mine" ≠ "other" ∧
      (authenticate envC5 reqC5 0).result = AuthResult.errored "Internal Server Error" :=
  ⟨rfl, rfl, by decide,
    (authenticate_token_mismatch idVerify storeC5 reqC5 "mine" "b@x.com" acctMismatch []
      "mine" "other" rfl (by decide) rfl (by decide) rfl rfl rfl (by decide)).1⟩

/-- A sequence of read operations leaves the persisted store unchanged. -/
theorem applyOps_all_read (store : List Account) (ops : List DbOp)
    (h : ops.all DbOp.isRead = true) : applyOps store ops = store := by
  induction ops with
  | nil => rfl
  | cons op t ih =>
    rw [List.all_cons, Bool.and_eq_true] at h
    cases op with
    | read e => simpa [applyOps, applyOp] using ih h.2
    | write a => simp [DbOp.isRead] at h

/-- The trace of `authenticate` is empty or the single lookup by the claimed
email. -/
theorem authenticate_trace_shape (env : Env) (req : Request) (k : Nat) :
    (authenticate env req k).trace = [] ∨
      (authenticate env req k).trace = [DbOp.read (req.email.getD "")] := by
  by_cases h : (!(tsTruthy req.accessToken) || !(tsTruthy req.email)) = true
  · simp [authenticate, h]
  · rcases hv : env.verify (req.accessToken.getD "") with _ | rt
    · simp [authenticate, h, hv]
    · rcases hd : env.db k (req.email.getD "") with rs | _ | _
      · rcases rs with _ | ⟨account, rest⟩
        · simp [authenticate, h, hv, hd]
        · rcases hv2 : env.verify account.accessToken with _ | ut
          · simp [authenticate, h, hv, hd, hv2]
          · by_cases he : (rt == ut) = true
            · simp [authenticate, h, hv, hd, hv2, he]
            · simp [authenticate, h, hv, hd, hv2, he]
      · simp [authenticate, h, hv, hd]
      · simp [authenticate, h, hv, hd]

/-- Every database operation issued by `authenticate` is a read. -/
theorem authenticate_trace_all_read (env : Env) (req : Request) (k : Nat) :
    (authenticate env req k).trace.all DbOp.isRead = true := by
  rcases authenticate_trace_shape env req k with h | h <;> simp [h, DbOp.isRead]

/-- `authenticate` issues at most one database operation. -/
theorem authenticate_trace_length (env : Env) (req : Request) (k : Nat) :
    (authenticate env req k).trace.length ≤ 1 := by
  rcases authenticate_trace_shape env req k with h | h <;> simp [h]

/-- Over an honest store, once both headers are present and the presented
token decodes, `authenticate` issues exactly the one lookup by the claimed
email. -/
theorem authenticate_trace_one (verify : String → Option String)
    (store : List Account) (req : Request) (rt : String)
    (ha : tsTruthy req.accessToken = true) (he : tsTruthy req.email = true)
    (hv : verify (req.accessToken.getD "") = some rt) :
    (authenticate ⟨verify, honestDb store⟩ req 0).trace = [.read (req.email.getD "")] := by
  simp [authenticate, honestDb, ha, he, hv]
  repeat' split
  all_goals simp

/-- Every database operation issued by `userIsAdmin` is a read. -/
theorem userIsAdmin_trace_all_read (env : Env) (req : Request) (k : Nat) :
    (userIsAdmin env req k).trace.all DbOp.isRead = true := by
  have hsh := authenticate_trace_shape env req k
  rcases hr : (authenticate env req k).result with _ | m | _
  · rcases hd : env.db (authenticate env req k).calls (req.email.getD "") with rs | _ | _
    · by_cases hro : roleOk rs = true
      · rcases hsh with hsh | hsh <;> simp [userIsAdmin, hr, hd, hro, hsh, DbOp.isRead]
      · rcases hsh with hsh | hsh <;> simp [userIsAdmin, hr, hd, hro, hsh, DbOp.isRead]
    · rcases hsh with hsh | hsh <;> simp [userIsAdmin, hr, hd, hsh, DbOp.isRead]
    · rcases hsh with hsh | hsh <;> simp [userIsAdmin, hr, hd, hsh, DbOp.isRead]
  · rcases hsh with hsh | hsh <;> simp [userIsAdmin, hr, hsh, DbOp.isRead]
  · rcases hsh with hsh | hsh <;> simp [userIsAdmin, hr, hsh, DbOp.isRead]

/-- Every database operation issued by `userIsSelfOrAdmin` is a read. -/
theorem userIsSelfOrAdmin_trace_all_read (env : Env) (req : Request) (k : Nat) :
    (userIsSelfOrAdmin env req k).trace.all DbOp.isRead = true := by
  have hsh := authenticate_trace_shape env req k
  rcases hr : (authenticate env req k).result with _ | m | _ <;>
    rcases hsh with hsh | hsh <;>
      simp [userIsSelfOrAdmin, hr, hsh, DbOp.isRead]

/-- C7, as the code behaves at the failing inputs: when `pool.getConnection`
errors during the authenticator's lookup, `query` only logs and returns, so
the request is never answered (no 500 is sent); and when the role check's
own lookup rejects, the rejection happens in the detached async callback and
is answered by nothing — an unhandled rejection rather than a 500. -/
theorem query_fault_leaves_request_unanswered :
    userIsAdminRun envHang reqAdmin = Outcome.noResponse ∧
      userIsAdminRun envFault2 reqAdmin = Outcome.unhandledRejection ∧
      userIsAdminRun envHang reqAdmin ≠ Outcome.respond 500 ∧
      userIsAdminRun envFault2 reqAdmin ≠ Outcome.respond 500 :=
  ⟨rfl, rfl, by decide, by decide⟩

/-- Counterexample to C8 as stated: an evaluation of the authenticator on a
request with no credential headers performs zero persistence lookups, not
exactly one. -/
theorem authenticate_lookup_count_not_one :
    ¬ ((authenticate envW reqNoHeaders 0).trace.length = 1) := by
  decide

/-- C8 (amended): the guards issue only read operations, so evaluating a
guard leaves the persisted store unchanged and a second evaluation against
the post-state yields the same outcome; the authenticator performs at most
one lookup and no writes, and exactly one lookup once both credential
headers are present and the presented token decodes. -/
theorem guards_idempotent_readonly (verify : String → Option String)
    (store : List Account) (req : Request) (rt : String) :
    (userIsAdmin ⟨verify, honestDb store⟩ req 0).trace.all DbOp.isRead = true ∧
      applyOps store (userIsAdmin ⟨verify, honestDb store⟩ req 0).trace = store ∧
      (userIsAdmin ⟨verify, honestDb (applyOps store (userIsAdmin ⟨verify, honestDb store⟩ req 0).trace)⟩ req 0).outcome =
        (userIsAdmin ⟨verify, honestDb store⟩ req 0).outcome ∧
      (userIsSelfOrAdmin ⟨verify, honestDb store⟩ req 0).trace.all DbOp.isRead = true ∧
      applyOps store (userIsSelfOrAdmin ⟨verify, honestDb store⟩ req 0).trace = store ∧
      (userIsSelfOrAdmin ⟨verify, honestDb (applyOps store (userIsSelfOrAdmin ⟨verify, honestDb store⟩ req 0).trace)⟩ req 0).outcome =
        (userIsSelfOrAdmin ⟨verify, honestDb store⟩ req 0).outcome ∧
      (authenticate ⟨verify, honestDb store⟩ req 0).trace.length ≤ 1 ∧
      (tsTruthy req.accessToken = true → tsTruthy req.email = true →
        verify (req.accessToken.getD "") = some rt →
        (authenticate ⟨verify, honestDb store⟩ req 0).trace.length = 1) := by
  have hA := userIsAdmin_trace_all_read ⟨verify, honestDb store⟩ req 0
  have hS := userIsSelfOrAdmin_trace_all_read ⟨verify, honestDb store⟩ req 0
  refine ⟨hA, applyOps_all_read store _ hA, ?_, hS, applyOps_all_read store _ hS, ?_,
    authenticate_trace_length ⟨verify, honestDb store⟩ req 0, ?_⟩
  · rw [applyOps_all_read store _ hA]
  · rw [applyOps_all_read store _ hS]
  · intro ha he hv
    rw [authenticate_trace_one verify store req rt ha he hv]
    rfl

/-- Witness for C8 (amended): the administrator's request performs exactly
one lookup during authentication, and running the admin guard leaves the
store `storeW` unchanged. -/
theorem guards_idempotent_readonly_witness :
    tsTruthy reqAdmin.accessToken = true ∧ tsTruthy reqAdmin.email = true ∧
      idVerify (reqAdmin.accessToken.getD "") = some "tokA" ∧
      (authenticate envW reqAdmin 0).trace.length = 1 ∧
      applyOps storeW (userIsAdmin envW reqAdmin 0).trace = storeW :=
  ⟨rfl, rfl, rfl,
    (guards_idempotent_readonly idVerify storeW reqAdmin "tokA").2.2.2.2.2.2.2 rfl rfl rfl,
    (guards_idempotent_readonly idVerify storeW reqAdmin "tokA").2.1⟩

/-- C9: over an honest (unchanging) store, the implemented two-lookup
`userIsAdmin` and the single-lookup collapse `userIsAdminSingle` produce the
same boundary outcome on every request. -/
theorem userIsAdmin_single_lookup_equiv (verify : String → Option String)
    (store : List Account) (req : Request) :
    userIsAdminRun ⟨verify, honestDb store⟩ req =
      userIsAdminSingle ⟨verify, honestDb store⟩ req 0 := by
  by_cases h : (!(tsTruthy req.accessToken) || !(tsTruthy req.email)) = true
  · simp [userIsAdminRun, userIsAdmin, userIsAdminSingle, authenticate, h]
  · rcases hv : verify (req.accessToken.getD "") with _ | rt
    · simp [userIsAdminRun, userIsAdmin, userIsAdminSingle, authenticate, h, hv]
    · rcases hq : store.filter (fun a => a.email == req.email.getD "") with _ | ⟨account, rest⟩
      · simp [userIsAdminRun, userIsAdmin, userIsAdminSingle, authenticate, honestDb, h, hv, hq]
      · rcases hv2 : verify account.accessToken with _ | ut
        · simp [userIsAdminRun, userIsAdmin, userIsAdminSingle, authenticate, honestDb,
            h, hv, hq, hv2]
        · by_cases he : (rt == ut) = true
          · by_cases hro : account.role = "ADMIN"
            · simp [userIsAdminRun, userIsAdmin, userIsAdminSingle, authenticate, honestDb,
                roleOk, h, hv, hq, hv2, he, hro]
            · simp [userIsAdminRun, userIsAdmin, userIsAdminSingle, authenticate, honestDb,
                roleOk, h, hv, hq, hv2, he, hro]
          · simp [userIsAdminRun, userIsAdmin, userIsAdminSingle, authenticate, honestDb,
              h, hv, hq, hv2, he]

/-- C10: whenever authentication accepted but the role check's own lookup
resolves with zero rows, `userIsAdmin` answers Forbidden (403): the guard
tests `result.length > 0` before reading the role column, so it neither
faults nor allows. -/
theorem userIsAdmin_empty_role_lookup_forbidden (env : Env) (req : Request) (em : String)
    (h1 : req.email = some em)
    (h2 : (authenticate env req 0).result = .accepted)
    (h3 : env.db (authenticate env req 0).calls em = .rows []) :
    userIsAdminRun env req = .respond 403 := by
  simp [userIsAdminRun, userIsAdmin, h1, h2, h3, roleOk]

/-- Witness for C10: with a persistence layer whose first lookup finds the
administrator's row and whose second finds nothing, the admin guard
authenticates the request and then answers 403. -/
theorem userIsAdmin_empty_role_lookup_forbidden_witness :
    reqAdmin.email = some "admin@x.com" ∧
      (authenticate envSecondEmpty reqAdmin 0).result = AuthResult.accepted ∧
      envSecondEmpty.db (authenticate envSecondEmpty reqAdmin 0).calls "admin@x.com" =
        DbReply.rows [] ∧
      userIsAdminRun envSecondEmpty reqAdmin = Outcome.respond 403 :=
  ⟨rfl, rfl, rfl,
    userIsAdmin_empty_role_lookup_forbidden envSecondEmpty reqAdmin "admin@x.com" rfl rfl rfl⟩

end LvAuth
